import Mathlib

/-
Verification development for the icon resolution and caching engine of the
QuickStart repository (src/backend/system_manager.py, src/backend/file_manager.py,
src/backend/app.py).

The Python code is shallowly embedded: filesystem probes, Win32 calls and PIL
library operations become oracle fields of environment structures, and each
embedded function mirrors the control flow of the corresponding Python method.
Icon byte strings are lists of naturals, the on-disk icon cache is an
association list keyed by (path, with_arrow) -- in the source the key is
md5(path) plus a "_plain" or "_arrow" suffix, which keys entries by exactly
that pair.  Python truthiness tests on byte strings (if data:) are modelled by
the function truthy below.
-/

/-- Icon byte strings (Python bytes). -/
abbrev Bytes := List Nat

/-- The on-disk icon cache directory: entries keyed by (file path, with_arrow). -/
abbrev Cache := List ((String × Bool) × Bytes)

/-- Python truthiness of an optional byte string: None and empty bytes are falsy. -/
def truthy : Option Bytes → Option Bytes
  | some d => if d.isEmpty then none else some d
  | none => none

/-- The base64 alphabet used by base64.b64encode. -/
def b64Alphabet : List Char :=
  "ABCDEFGHIJKLMNOPQRSTUVWXYZabcdefghijklmnopqrstuvwxyz0123456789+/".toList

/-- One base64 digit. -/
def b64c (n : Nat) : Char := b64Alphabet.getD n '='

/-- base64.b64encode(...).decode(), for comparing the strings the engine returns. -/
def b64encode : Bytes → String
  | [] => ""
  | [a] => String.mk [b64c (a / 4), b64c (a % 4 * 16), '=', '=']
  | [a, b] => String.mk [b64c (a / 4), b64c (a % 4 * 16 + b / 16), b64c (b % 16 * 4), '=']
  | a :: b :: c :: rest =>
    String.mk [b64c (a / 4), b64c (a % 4 * 16 + b / 16), b64c (b % 16 * 4 + c / 64), b64c (c % 64)]
      ++ b64encode rest

/-- Python s.startswith(pre), done on character lists so that closed proofs
can evaluate it. -/
def startswith (s pre : String) : Bool := pre.data.isPrefixOf s.data

/-- Python s.endswith(suf), on character lists. -/
def endswith (s suf : String) : Bool := suf.data.isSuffixOf s.data

/-- Python s.lower(), on character lists. -/
def lower (s : String) : String := String.mk (s.data.map Char.toLower)

/-- Python s[n:], on character lists. -/
def dropn (s : String) (n : Nat) : String := String.mk (s.data.drop n)

/-- Python s.strip(), on character lists. -/
def pystrip (s : String) : String :=
  String.mk (((s.data.dropWhile Char.isWhitespace).reverse.dropWhile
    Char.isWhitespace).reverse)

/-- Decimal digit-string value, none on empty input or a non-digit. -/
def digitsVal? (l : List Char) : Option Nat :=
  if l.isEmpty then none
  else
    l.foldl
      (fun acc c =>
        match acc with
        | none => none
        | some n => if c.isDigit then some (n * 10 + (c.toNat - 48)) else none)
      (some 0)

/-- Python int(s) on an already-stripped string, none when it raises ValueError. -/
def pyint? (s : String) : Option Int :=
  match s.data with
  | '-' :: rest => (digitsVal? rest).map (fun n => -(n : Int))
  | '+' :: rest => (digitsVal? rest).map (fun n => (n : Int))
  | l => (digitsVal? l).map (fun n => (n : Int))

/-- SystemManager._get_cached_icon: read the cache entry for (path, with_arrow)
if its file exists (system_manager.py lines 60-87; the md5-keyed cache file is
the association-list entry). -/
def _get_cached_icon : Cache → String → Bool → Option Bytes
  | [], _, _ => none
  | (k, d) :: rest, p, w => if k = (p, w) then some d else _get_cached_icon rest p w

/-- SystemManager._save_icon_to_cache (system_manager.py lines 89-113): return
immediately on falsy icon_data (None or empty bytes), otherwise overwrite the
cache entry for (path, with_arrow). -/
def _save_icon_to_cache (c : Cache) (p : String) (icon_data : Option Bytes)
    (with_arrow : Bool) : Cache :=
  match icon_data with
  | none => c
  | some d =>
    if d.isEmpty then c
    else ((p, with_arrow), d) :: c.filter (fun e => decide (e.1 ≠ (p, with_arrow)))

/-
Model of SystemManager.get_icon_win32 (system_manager.py lines 181-219) at the
granularity of its two native handle-acquisition strategies:
_extract_icon (ExtractIconExW, lines 221-245) and _get_file_info
(SHGetFileInfoW with SHGFI_ICON | SHGFI_LARGEICON, lines 247-270).
-/

/-- Native oracles for get_icon_win32: each strategy either yields an icon
handle or fails, and _icon_to_bitmap converts a handle to bytes or fails. -/
structure WinEnv where
  extractIconExLarge : String → Option Nat
  shGetFileInfoIcon : String → Option Nat
  iconToBitmap : Nat → Option Bytes

/-- The two handle-acquisition strategies get_icon_win32 actually invokes. -/
inductive WinStrategy
  | extractIconEx
  | shGetFileInfo
deriving DecidableEq, Repr

/-- SystemManager.get_icon_win32: _extract_icon first; only if it yields no
handle, SHGetFileInfo; the first acquired handle goes to _icon_to_bitmap.
The second component records the strategies invoked, in order. -/
def get_icon_win32 (env : WinEnv) (p : String) : Option Bytes × List WinStrategy :=
  match env.extractIconExLarge p with
  | some h => (env.iconToBitmap h, [WinStrategy.extractIconEx])
  | none =>
    match env.shGetFileInfoIcon p with
    | some h => (env.iconToBitmap h, [WinStrategy.extractIconEx, WinStrategy.shGetFileInfo])
    | none => (none, [WinStrategy.extractIconEx, WinStrategy.shGetFileInfo])

/-
Pixel-level image model shared by the renderer (_icon_to_bitmap), the overlay
compositor (_add_arrow_to_icon) and FileManager.get_file_icon.  Channels are
rationals on the 0..255 scale, alpha included (PIL RGBA).
-/

/-- One RGBA pixel, channels on the 0..255 scale. -/
@[ext]
structure Pixel where
  r : ℚ
  g : ℚ
  b : ℚ
  a : ℚ
deriving DecidableEq

/-- An RGBA image: dimensions plus a pixel function. -/
structure Img where
  w : Nat
  h : Nat
  px : Nat → Nat → Pixel

/-- The fully transparent pixel (0, 0, 0, 0). -/
def transparentPx : Pixel := ⟨0, 0, 0, 0⟩

/-- PIL Image.new(mode, size, color): a constant image. -/
def imageNew (w h : Nat) (c : Pixel) : Img := ⟨w, h, fun _ _ => c⟩

/-- Channelwise mix of two pixels by a mask value m on the 0..255 scale, the
documented behaviour of PIL Image.paste with a mask (alpha channels included). -/
def mixPx (bot src : Pixel) (m : ℚ) : Pixel :=
  ⟨bot.r * (1 - m / 255) + src.r * (m / 255),
   bot.g * (1 - m / 255) + src.g * (m / 255),
   bot.b * (1 - m / 255) + src.b * (m / 255),
   bot.a * (1 - m / 255) + src.a * (m / 255)⟩

/-- PIL base.paste(src, (px0, py0), src): inside the pasted rectangle each
pixel is mixed with the source pixel using the source alpha as mask. -/
def pasteMask (base src : Img) (px0 py0 : Nat) : Img :=
  ⟨base.w, base.h, fun x y =>
    if px0 ≤ x ∧ x < px0 + src.w ∧ py0 ≤ y ∧ y < py0 + src.h then
      mixPx (base.px x y) (src.px (x - px0) (y - py0)) (src.px (x - px0) (y - py0)).a
    else base.px x y⟩

/-- Straight-alpha over operator of PIL Image.alpha_composite, top over bottom. -/
def alphaOverPx (bot top : Pixel) : Pixel :=
  let ta := top.a / 255
  let ba := bot.a / 255
  let oa := ta + ba * (1 - ta)
  ⟨if oa = 0 then 0 else (top.r * ta + bot.r * ba * (1 - ta)) / oa,
   if oa = 0 then 0 else (top.g * ta + bot.g * ba * (1 - ta)) / oa,
   if oa = 0 then 0 else (top.b * ta + bot.b * ba * (1 - ta)) / oa,
   255 * oa⟩

/-- PIL Image.alpha_composite lifted to images (dimensions of the bottom image). -/
def alpha_composite (bot top : Img) : Img :=
  ⟨bot.w, bot.h, fun x y => alphaOverPx (bot.px x y) (top.px x y)⟩

/-- A resampling kernel: PIL resize(LANCZOS) is numeric resampling whose exact
pixel values the engine does not depend on; the kernel is an oracle, but the
output dimensions are the requested ones, as PIL guarantees. -/
abbrev Sampler := Img → Nat → Nat → Nat → Nat → Pixel

/-- img.resize((w, h)) with an oracle resampling kernel: output has exactly the
requested dimensions. -/
def resizeTo (sample : Sampler) (img : Img) (w h : Nat) : Img := ⟨w, h, sample img w h⟩

/-- SystemManager._add_arrow_to_icon (system_manager.py lines 748-809), given
the located indicator asset: the indicator is resized to
int(target_size[0] * 0.4) square (for the Nat sizes in play int(w * 0.4) is
(2 * w) / 5 and int(w * 0.1) is w / 10), pasted with itself as mask at
(int(w * 0.1), h - int(h * 0.1) - arrow_size) onto a transparent layer, and the
layer is alpha-composited over the base image. -/
def _add_arrow_to_icon (sample : Sampler) (arrow_img0 : Img) (img : Img) : Img :=
  let arrow_size := 2 * img.w / 5
  let arrow_img := resizeTo sample arrow_img0 arrow_size arrow_size
  let paste_x := img.w / 10
  let paste_y := img.h - img.h / 10 - arrow_size
  let arrow_layer := pasteMask (imageNew img.w img.h transparentPx) arrow_img paste_x paste_y
  alpha_composite img arrow_layer

/-
Model of SystemManager._icon_to_bitmap (system_manager.py lines 272-373):
oracles for the native drawing steps, the PIL decoding of the raw BGRA bits,
and the optional arrow compositing.
-/

/-- Oracles for _icon_to_bitmap.  removeArrowSetting is none when no
config_manager was supplied, otherwise the remove_arrow setting. -/
structure RenderEnv where
  pilAvailable : Bool
  removeArrowSetting : Option Bool
  drawIconOk : Nat → Bool
  getBitmapBits : Nat → Option Bytes
  pilProcessOk : Bool
  decode : Bytes → Nat → Nat → Pixel
  addArrowRes : Img → Option Img

/-- What _icon_to_bitmap hands back: a PNG-encoded image, or the raw BGRA
bitmap bytes when PIL could not produce a PNG. -/
inductive RenderOut
  | png (img : Img)
  | raw (bits : Bytes)

/-- The blank fallback icon: 64 by 64, every pixel (200, 200, 200, 255). -/
def gray64 : Img := ⟨64, 64, fun _ _ => ⟨200, 200, 200, 255⟩⟩

/-- SystemManager._icon_to_bitmap: draw the icon into a fixed 64 by 64 surface,
read the bits back, and PNG-encode via PIL; on drawing or read-back failure
fall back to the blank gray icon (None when PIL is unavailable).  When
show_arrow holds and _add_arrow_to_icon fails, the source then calls
img.save on None, which raises inside the PIL try block and returns the raw
bits. -/
def _icon_to_bitmap (env : RenderEnv) (hicon : Nat) (add_arrow : Bool) : Option RenderOut :=
  let show_arrow :=
    match env.removeArrowSetting with
    | some remove => add_arrow && !remove
    | none => false
  if env.drawIconOk hicon then
    match env.getBitmapBits hicon with
    | some bits =>
      if env.pilAvailable then
        if env.pilProcessOk then
          let img : Img := ⟨64, 64, env.decode bits⟩
          if show_arrow then
            match env.addArrowRes img with
            | some composited => some (RenderOut.png composited)
            | none => some (RenderOut.raw bits)
          else some (RenderOut.png img)
        else some (RenderOut.raw bits)
      else some (RenderOut.raw bits)
    | none => if env.pilAvailable then some (RenderOut.png gray64) else none
  else if env.pilAvailable then some (RenderOut.png gray64) else none

/-
Model of FileManager.get_file_icon (file_manager.py lines 544-660), the generic
file-icon fallback.  It draws into a size-by-size compatible bitmap (size is
the parameter, 32 by default at every call site) and PNG-encodes the result.
-/

/-- Oracles for FileManager.get_file_icon.  shInfoHandle p is some h when
SHGetFileInfoW returned nonzero, with h the (possibly null) hIcon; extractPair
is the ExtractIconEx fallback yielding (large, small) handles. -/
structure FMEnv where
  pathExists : String → Bool
  shInfoHandle : String → Option Nat
  extractPair : String → Option (Nat × Nat)
  drawOk : Nat → Bool
  getBitmapBits : Nat → Option Bytes
  decode : Bytes → Nat → Nat → Pixel

/-- FileManager.get_file_icon: the produced image (content of the returned PNG
data URL), or none on any failure.  The drawing surface is size by size. -/
def fm_get_file_icon (env : FMEnv) (p : String) (size : Nat) : Option Img :=
  if env.pathExists p then
    let icon_handle : Option Nat :=
      match env.shInfoHandle p with
      | some h => some h
      | none =>
        match env.extractPair p with
        | some pr => some (if 32 ≤ size then pr.1 else pr.2)
        | none => none
    match icon_handle with
    | none => none
    | some h =>
      if h = 0 then none
      else if env.drawOk h then
        match env.getBitmapBits h with
        | some bits => some ⟨size, size, env.decode bits⟩
        | none => none
      else none
  else none

/-
Model of the full resolution pipeline of SystemManager (get_file_icon_base64,
get_lnk_icon, get_url_icon; system_manager.py lines 115-179, 589-746, 404-587).
Native extraction and rendering are deterministic byte oracles; every call
returns (result, updated cache, trace of resolution actions).
-/

/-- Oracles and settings for the resolution pipeline.  win32Icon is the whole
get_icon_win32 chain on a path; shInfoIcon / shInfoIconOverlay are
SHGetFileInfoW (without / with SHGFI_LINKOVERLAY) followed by _icon_to_bitmap;
addArrow is PIL decoding plus _add_arrow_to_icon on PNG bytes; urlLines is the
text content of a .url file; icoLoad gives n_frames when PIL opens an icon
file; icoRender is the 64 by 64 PNG produced from a given frame.
lnkIconLocation is the icon-file/icon-index pair stored in a .lnk file: the
data exists in the shortcut format, and the field lets us state claims about
it, but no method of the source ever reads it. -/
structure Env where
  remove_arrow : Bool
  pathExists : String → Bool
  pilAvailable : Bool
  win32Icon : String → Option Bytes
  lnkTarget : String → Option String
  lnkIconLocation : String → Option (String × Int)
  shInfoIcon : String → Option Bytes
  shInfoIconOverlay : String → Option Bytes
  addArrow : Bytes → Option Bytes
  urlLines : String → List String
  icoLoad : String → Option Nat
  icoRender : String → Nat → Bytes

/-- One step of the resolution trace. -/
inductive Act
  | cacheHit (p : String) (arrow : Bool)
  | extractWin32 (target : String)
  | shQuery (target : String) (overlay : Bool)
  | icoDirect (file : String) (frame : Nat)
deriving DecidableEq, Repr

/-- Whether an action is a native extraction strategy (anything but a cache read). -/
def Act.isNative : Act → Bool
  | Act.cacheHit _ _ => false
  | _ => true

/-- True unless the action extracts from an explicit icon file. -/
def notIcoDirect : Act → Bool
  | Act.icoDirect _ _ => false
  | _ => true

/-- Prepend already-performed actions to a pipeline step result. -/
def withActs (pre : List Act) (r : Option Bytes × Cache × List Act) :
    Option Bytes × Cache × List Act :=
  (r.1, r.2.1, pre ++ r.2.2)

/-- file_path.lower().endswith((".lnk", ".url")). -/
def isShortcutPath (p : String) : Bool :=
  endswith (lower p) ".lnk" || endswith (lower p) ".url"

/-- Method 2 of SystemManager.get_lnk_icon (system_manager.py lines 657-739):
SHGetFileInfoW on the shortcut file itself; on success cache the plain
variant, then, when the indicator is wanted, try the SHGFI_LINKOVERLAY query
and after that manual arrow compositing. -/
def lnk_method2 (env : Env) (c : Cache) (p : String) : Option Bytes × Cache × List Act :=
  match truthy (env.shInfoIcon p) with
  | some orig =>
    let c1 := _save_icon_to_cache c p (some orig) false
    if env.remove_arrow then (some orig, c1, [Act.shQuery p false])
    else
      match truthy (env.shInfoIconOverlay p) with
      | some arr =>
        (some arr, _save_icon_to_cache c1 p (some arr) true,
         [Act.shQuery p false, Act.shQuery p true])
      | none =>
        if env.pilAvailable then
          match truthy (env.addArrow orig) with
          | some arr =>
            (some arr, _save_icon_to_cache c1 p (some arr) true,
             [Act.shQuery p false, Act.shQuery p true])
          | none => (some orig, c1, [Act.shQuery p false, Act.shQuery p true])
        else (some orig, c1, [Act.shQuery p false, Act.shQuery p true])
  | none => (none, c, [Act.shQuery p false])

/-- SystemManager.get_lnk_icon (system_manager.py lines 589-746): cache lookup
for the requested variant; method 1 resolves the IShellLink target path and,
when it exists, extracts the target icon via get_icon_win32 (caching the plain
variant and attempting arrow compositing); otherwise method 2 queries the
shortcut file itself.  The stored icon-file/icon-index pair of the shortcut is
never consulted. -/
def get_lnk_icon (env : Env) (c : Cache) (p : String) : Option Bytes × Cache × List Act :=
  let with_arrow := !env.remove_arrow
  match truthy (_get_cached_icon c p with_arrow) with
  | some d => (some d, c, [Act.cacheHit p with_arrow])
  | none =>
    match env.lnkTarget p with
    | some t =>
      if !t.isEmpty && env.pathExists t then
        match truthy (env.win32Icon t) with
        | some orig =>
          let c1 := _save_icon_to_cache c p (some orig) false
          if !env.remove_arrow && env.pilAvailable then
            match truthy (env.addArrow orig) with
            | some arr =>
              (some arr, _save_icon_to_cache c1 p (some arr) true, [Act.extractWin32 t])
            | none => (some orig, c1, [Act.extractWin32 t])
          else (some orig, c1, [Act.extractWin32 t])
        | none => withActs [Act.extractWin32 t] (lnk_method2 env c p)
      else lnk_method2 env c p
    | none => lnk_method2 env c p

/-- The line-oriented parse of a .url file (system_manager.py lines 430-441):
last IconFile=, IconIndex= (kept only when int() parses) and URL= lines win;
results are (icon_file, icon_index, url). -/
def parse_url_fields (lines : List String) : Option String × Int × String :=
  lines.foldl
    (fun acc line =>
      if startswith line "IconFile=" then (some (pystrip (dropn line 9)), acc.2.1, acc.2.2)
      else if startswith line "IconIndex=" then
        match pyint? (pystrip (dropn line 10)) with
        | some n => (acc.1, n, acc.2.2)
        | none => acc
      else if startswith line "URL=" then (acc.1, acc.2.1, pystrip (dropn line 4))
      else acc)
    (none, 0, "")

/-- Last fallback of get_url_icon (system_manager.py lines 556-582):
get_icon_win32 on the .url file itself, with the plain/arrow caching dance. -/
def url_win32_branch (env : Env) (c : Cache) (p : String) : Option Bytes × Cache × List Act :=
  match truthy (env.win32Icon p) with
  | some orig =>
    let c1 := _save_icon_to_cache c p (some orig) false
    if env.pilAvailable then
      match truthy (env.addArrow orig) with
      | some arr =>
        (if env.remove_arrow then some orig else some arr,
         _save_icon_to_cache c1 p (some arr) true, [Act.extractWin32 p])
      | none => (some orig, c1, [Act.extractWin32 p])
    else (some orig, c1, [Act.extractWin32 p])
  | none => (none, c, [Act.extractWin32 p])

/-- Shell-API fallback of get_url_icon (system_manager.py lines 501-553):
SHGetFileInfoW on the .url file itself, then the plain/arrow caching dance; on
failure the win32 branch runs. -/
def url_shell_branch (env : Env) (c : Cache) (p : String) : Option Bytes × Cache × List Act :=
  match truthy (env.shInfoIcon p) with
  | some orig =>
    let c1 := _save_icon_to_cache c p (some orig) false
    if env.pilAvailable then
      match truthy (env.addArrow orig) with
      | some arr =>
        (if env.remove_arrow then some orig else some arr,
         _save_icon_to_cache c1 p (some arr) true, [Act.shQuery p false])
      | none => (some orig, c1, [Act.shQuery p false])
    else (some orig, c1, [Act.shQuery p false])
  | none => withActs [Act.shQuery p false] (url_win32_branch env c p)

/-- get_url_icon after the cache lookups (system_manager.py lines 426-584):
parse the file; when IconFile is truthy, exists, names a .ico file
(case-insensitively) and PIL is available, load it directly, seeking to
IconIndex exactly when 0 <= IconIndex < n_frames (otherwise frame 0 stays),
render at 64 by 64, cache plain and arrow variants and return per the setting;
in every other case fall back to the shell-API branch. -/
def url_after_cache (env : Env) (c : Cache) (p : String) : Option Bytes × Cache × List Act :=
  let fields := parse_url_fields (env.urlLines p)
  match fields.1 with
  | some f =>
    if !f.isEmpty && env.pathExists f then
      if endswith (lower f) ".ico" && env.pilAvailable then
        match env.icoLoad f with
        | some nFrames =>
          let idx := fields.2.1
          let frame : Nat := if 0 ≤ idx ∧ idx < (nFrames : Int) then idx.toNat else 0
          let orig := env.icoRender f frame
          let c1 := _save_icon_to_cache c p (some orig) false
          match truthy (env.addArrow orig) with
          | some arr =>
            (if env.remove_arrow then some orig else some arr,
             _save_icon_to_cache c1 p (some arr) true, [Act.icoDirect f frame])
          | none => (some orig, c1, [Act.icoDirect f frame])
        | none => url_shell_branch env c p
      else url_shell_branch env c p
    else url_shell_branch env c p
  | none => url_shell_branch env c p

/-- SystemManager.get_url_icon (system_manager.py lines 404-587): plain-variant
cache lookup first; with the indicator wanted, also the arrow-variant lookup,
falling through to fresh extraction when only the plain variant is cached. -/
def get_url_icon (env : Env) (c : Cache) (p : String) : Option Bytes × Cache × List Act :=
  match truthy (_get_cached_icon c p false) with
  | some plain =>
    if env.remove_arrow then (some plain, c, [Act.cacheHit p false])
    else
      match truthy (_get_cached_icon c p true) with
      | some arr => (some arr, c, [Act.cacheHit p true])
      | none => url_after_cache env c p
  | none => url_after_cache env c p

/-- The shortcut part of get_file_icon_base64 (system_manager.py lines
130-157): for .lnk/.url paths, the requested-variant cache lookup and then the
dedicated resolver; a falsy resolver result falls through (result none) to the
plain-file logic. -/
def shortcut_step (env : Env) (c : Cache) (p : String) : Option String × Cache × List Act :=
  if isShortcutPath p then
    let with_arrow := !env.remove_arrow
    match truthy (_get_cached_icon c p with_arrow) with
    | some d => (some (b64encode d), c, [Act.cacheHit p with_arrow])
    | none =>
      if endswith (lower p) ".lnk" then
        match get_lnk_icon env c p with
        | (r, c1, a) =>
          match truthy r with
          | some d => (some (b64encode d), c1, a)
          | none => (none, c1, a)
      else
        match get_url_icon env c p with
        | (r, c1, a) =>
          match truthy r with
          | some d => (some (b64encode d), c1, a)
          | none => (none, c1, a)
  else (none, c, [])

/-- SystemManager.get_file_icon_base64 (system_manager.py lines 115-179): None
when the path does not exist; shortcuts go through shortcut_step; then the
plain cache lookup and the get_icon_win32 chain, caching on success; None when
everything failed. -/
def get_file_icon_base64 (env : Env) (c : Cache) (p : String) :
    Option String × Cache × List Act :=
  if env.pathExists p then
    match shortcut_step env c p with
    | (some s, c1, a) => (some s, c1, a)
    | (none, c1, a) =>
      match truthy (_get_cached_icon c1 p false) with
      | some d => (some (b64encode d), c1, a ++ [Act.cacheHit p false])
      | none =>
        match truthy (env.win32Icon p) with
        | some d =>
          (some (b64encode d), _save_icon_to_cache c1 p (some d) false,
           a ++ [Act.extractWin32 p])
        | none => (none, c1, a ++ [Act.extractWin32 p])
  else (none, c, [])

/-- The cache variant a request for path p reads first: the arrow setting
decides for shortcuts, plain files always use the plain variant. -/
def requestedVariant (env : Env) (p : String) : Bool :=
  if isShortcutPath p then !env.remove_arrow else false

/-
Model of the /api/clear-icon-cache handler clear_icon_cache (app.py lines
1034-1133).  The in-memory dictionaries are reset to empty; the cache
directory walk unlinks regular files in order inside a single try block, so
the first failing unlink aborts the remaining deletions and an error note
replaces the deleted-files count; the handler still answers success.
-/

/-- One entry of the cache directory: name, whether os.path.isfile holds, and
whether os.unlink would succeed. -/
structure DirEntry where
  name : String
  isFile : Bool
  unlinkOk : Bool
deriving DecidableEq, Repr

/-- Environment of the clear handler: presence of the two managers, sizes of
the in-memory dictionaries, and the cache directory content. -/
structure ClearEnv where
  fmPresent : Bool
  smPresent : Bool
  fmCache : Nat
  smCache : Nat
  smLnkCache : Nat
  cacheDirExists : Bool
  entries : List DirEntry

/-- The notes appended to the cleared list (modelled as tokens). -/
inductive ClearMsg
  | fmCleared (old : Nat)
  | smCleared (old : Nat)
  | smLnkCleared (old : Nat)
  | deletedFiles (count : Nat)
  | dirCreated
  | dirError
  | gcDone
deriving DecidableEq, Repr

/-- True unless the note is the deleted-files count. -/
def notDeletedCount : ClearMsg → Bool
  | ClearMsg.deletedFiles _ => false
  | _ => true

/-- The os.unlink loop of the handler: delete regular files in order; a
failing unlink raises out of the loop, so everything after it survives.
Returns (files deleted, no failure occurred, surviving entries). -/
def unlinkLoop : List DirEntry → Nat × Bool × List DirEntry
  | [] => (0, true, [])
  | e :: rest =>
    if e.isFile then
      if e.unlinkOk then
        let r := unlinkLoop rest
        (r.1 + 1, r.2.1, r.2.2)
      else (0, false, e :: rest)
    else
      let r := unlinkLoop rest
      (r.1, r.2.1, e :: r.2.2)

/-- The response of the handler. -/
structure ClearOutcome where
  success : Bool
  status : Nat
  fmCache : Nat
  smCache : Nat
  smLnkCache : Nat
  remaining : List DirEntry
  messages : List ClearMsg

/-- clear_icon_cache (app.py lines 1034-1133): reset the in-memory
dictionaries of the managers that are present, then walk the cache directory
(only when the system manager is present); the deleted-files count is reported
only when no unlink failed, a failure leaving an error note instead; the
response is always success with status 200. -/
def clear_icon_cache (env : ClearEnv) : ClearOutcome :=
  let fmPart : List ClearMsg × Nat :=
    if env.fmPresent then ([ClearMsg.fmCleared env.fmCache], 0) else ([], env.fmCache)
  let smPart : List ClearMsg × Nat × Nat :=
    if env.smPresent then
      ([ClearMsg.smCleared env.smCache, ClearMsg.smLnkCleared env.smLnkCache], 0, 0)
    else ([], env.smCache, env.smLnkCache)
  let dirPart : List ClearMsg × List DirEntry :=
    if env.smPresent then
      if env.cacheDirExists then
        let r := unlinkLoop env.entries
        (if r.2.1 then [ClearMsg.deletedFiles r.1] else [ClearMsg.dirError], r.2.2)
      else ([ClearMsg.dirCreated], [])
    else ([], env.entries)
  { success := true
    status := 200
    fmCache := fmPart.2
    smCache := smPart.2.1
    smLnkCache := smPart.2.2
    remaining := dirPart.2
    messages := fmPart.1 ++ smPart.1 ++ dirPart.1 ++ [ClearMsg.gcDone] }

/-
Concrete environments used by counterexamples and witnesses.
-/

/-- Counterexample environment for the nonexistent-path behaviour: no path
exists. -/
def envC1 : Env :=
  { remove_arrow := false
    pathExists := fun _ => false
    pilAvailable := true
    win32Icon := fun _ => none
    lnkTarget := fun _ => none
    lnkIconLocation := fun _ => none
    shInfoIcon := fun _ => none
    shInfoIconOverlay := fun _ => none
    addArrow := fun _ => none
    urlLines := fun _ => []
    icoLoad := fun _ => none
    icoRender := fun _ _ => [] }

/-- Counterexample environment for get_lnk_icon: the shortcut s.lnk resolves
to a target that no longer exists, while its stored icon-file/icon-index pair
names an existing, loadable icon file. -/
def envC2 : Env :=
  { remove_arrow := false
    pathExists := fun s => s = "C:\\app.ico" || s = "s.lnk"
    pilAvailable := true
    win32Icon := fun _ => none
    lnkTarget := fun s => if s = "s.lnk" then some "C:\\gone.exe" else none
    lnkIconLocation := fun s => if s = "s.lnk" then some ("C:\\app.ico", 0) else none
    shInfoIcon := fun s => if s = "s.lnk" then some [7] else none
    shInfoIconOverlay := fun s => if s = "s.lnk" then some [8] else none
    addArrow := fun _ => none
    urlLines := fun _ => []
    icoLoad := fun s => if s = "C:\\app.ico" then some 1 else none
    icoRender := fun _ _ => [9] }

/-- Counterexample environment for get_icon_win32: both native strategies
would succeed. -/
def envC3 : WinEnv :=
  { extractIconExLarge := fun _ => some 1
    shGetFileInfoIcon := fun _ => some 2
    iconToBitmap := fun h => some [h] }

/-- Witness environment for get_icon_win32 with both strategies failing. -/
def envC3none : WinEnv :=
  { extractIconExLarge := fun _ => none
    shGetFileInfoIcon := fun _ => none
    iconToBitmap := fun h => some [h] }

/-- Counterexample environment for get_url_icon: the parsed IconFile resolves
to an existing path, but it is a .dll, not a .ico. -/
def envC4 : Env :=
  { remove_arrow := true
    pathExists := fun s => s = "C:\\icons\\app.dll" || s = "s.url"
    pilAvailable := true
    win32Icon := fun _ => none
    lnkTarget := fun _ => none
    lnkIconLocation := fun _ => none
    shInfoIcon := fun s => if s = "s.url" then some [5, 5] else none
    shInfoIconOverlay := fun _ => none
    addArrow := fun _ => none
    urlLines := fun _ => ["IconFile=C:\\icons\\app.dll", "IconIndex=2", "URL=https://example.com"]
    icoLoad := fun _ => none
    icoRender := fun _ _ => [] }

/-- Witness environment for get_url_icon: the concrete spec scenario, an
existing app.ico with three frames and IconIndex=2. -/
def envC4ico : Env :=
  { remove_arrow := true
    pathExists := fun s => s = "C:\\icons\\app.ico" || s = "s.url"
    pilAvailable := true
    win32Icon := fun _ => none
    lnkTarget := fun _ => none
    lnkIconLocation := fun _ => none
    shInfoIcon := fun _ => none
    shInfoIconOverlay := fun _ => none
    addArrow := fun _ => none
    urlLines := fun _ => ["IconFile=C:\\icons\\app.ico", "IconIndex=2", "URL=https://example.com"]
    icoLoad := fun s => if s = "C:\\icons\\app.ico" then some 3 else none
    icoRender := fun _ k => [40 + k] }

/-- Counterexample environment for the clear handler: the first cache file is
locked, the second would delete fine. -/
def envC5 : ClearEnv :=
  { fmPresent := true
    smPresent := true
    fmCache := 3
    smCache := 4
    smLnkCache := 5
    cacheDirExists := true
    entries := [⟨"locked.png", true, false⟩, ⟨"b.png", true, true⟩] }

/-- Witness environment for the clear handler: every file deletable. -/
def envC5ok : ClearEnv :=
  { fmPresent := true
    smPresent := true
    fmCache := 2
    smCache := 2
    smLnkCache := 2
    cacheDirExists := true
    entries := [⟨"a.png", true, true⟩, ⟨"sub", false, true⟩, ⟨"b.png", true, true⟩] }

/-- Counterexample environment for FileManager.get_file_icon: a plain
existing file whose icon resolves. -/
def envC6 : FMEnv :=
  { pathExists := fun s => s = "a.exe"
    shInfoHandle := fun s => if s = "a.exe" then some 5 else none
    extractPair := fun _ => none
    drawOk := fun _ => true
    getBitmapBits := fun _ => some [0]
    decode := fun _ _ _ => ⟨0, 0, 0, 255⟩ }

/-- Witness environment for _icon_to_bitmap: everything succeeds. -/
def envC6render : RenderEnv :=
  { pilAvailable := true
    removeArrowSetting := some false
    drawIconOk := fun _ => true
    getBitmapBits := fun _ => some [1, 2, 3]
    pilProcessOk := true
    decode := fun _ _ _ => ⟨9, 9, 9, 255⟩
    addArrowRes := fun _ => none }

/-- Witness environment for the gray fallback of _icon_to_bitmap: drawing
fails, PIL is available. -/
def envC8 : RenderEnv :=
  { pilAvailable := true
    removeArrowSetting := some false
    drawIconOk := fun _ => false
    getBitmapBits := fun _ => some [1]
    pilProcessOk := true
    decode := fun _ _ _ => ⟨9, 9, 9, 255⟩
    addArrowRes := fun _ => none }

/-- Counterexample environment for the rendering fallback: drawing fails and
PIL is unavailable (the module prints a warning and keeps running with
PIL_AVAILABLE = False when the PIL import fails). -/
def envC8noPil : RenderEnv :=
  { pilAvailable := false
    removeArrowSetting := some false
    drawIconOk := fun _ => false
    getBitmapBits := fun _ => some [1]
    pilProcessOk := true
    decode := fun _ _ _ => ⟨9, 9, 9, 255⟩
    addArrowRes := fun _ => none }

/-- Counterexample environment for the idempotence claim: a shortcut whose
target extracts fine but whose indicator compositing fails, so the arrow
variant is never cached. -/
def envC9 : Env :=
  { remove_arrow := false
    pathExists := fun s => s = "x.lnk" || s = "C:\\t.exe"
    pilAvailable := true
    win32Icon := fun s => if s = "C:\\t.exe" then some [1, 2] else none
    lnkTarget := fun s => if s = "x.lnk" then some "C:\\t.exe" else none
    lnkIconLocation := fun _ => none
    shInfoIcon := fun _ => none
    shInfoIconOverlay := fun _ => none
    addArrow := fun _ => none
    urlLines := fun _ => []
    icoLoad := fun _ => none
    icoRender := fun _ _ => [] }

/-- Witness environment for the amended idempotence statement: a plain file
whose extraction succeeds. -/
def envC9w : Env :=
  { remove_arrow := false
    pathExists := fun s => s = "a.exe"
    pilAvailable := true
    win32Icon := fun s => if s = "a.exe" then some [7] else none
    lnkTarget := fun _ => none
    lnkIconLocation := fun _ => none
    shInfoIcon := fun _ => none
    shInfoIconOverlay := fun _ => none
    addArrow := fun _ => none
    urlLines := fun _ => []
    icoLoad := fun _ => none
    icoRender := fun _ _ => [] }

/-- Base image for the compositor witness: 64 by 64 solid opaque red. -/
def baseRed : Img := ⟨64, 64, fun _ _ => ⟨255, 0, 0, 255⟩⟩

/-- Indicator asset for the compositor witness: solid opaque blue. -/
def arrowBlue : Img := ⟨32, 32, fun _ _ => ⟨0, 0, 255, 255⟩⟩

/-- Resampling kernel for the compositor witness: constant opaque blue. -/
def sampleBlue : Sampler := fun _ _ _ _ _ => ⟨0, 0, 255, 255⟩

/-
Theorems.  Helper lemmas come first, then for each claim its counterexample
(where the claim as stated fails), main theorem and witness.
-/

theorem unlinkLoop_ok_characterisation (l : List DirEntry)
    (hok : (unlinkLoop l).2.1 = true) :
    (∀ e ∈ (unlinkLoop l).2.2, e.isFile = false) ∧
    (unlinkLoop l).1 = l.countP (fun e => e.isFile) := by
  induction l with
  | nil => simp [unlinkLoop]
  | cons e rest ih =>
    by_cases hf : e.isFile = true
    · by_cases hu : e.unlinkOk = true
      · have hok2 : (unlinkLoop rest).2.1 = true := by
          simpa [unlinkLoop, hf, hu] using hok
        obtain ⟨h1, h2⟩ := ih hok2
        refine ⟨?_, ?_⟩
        · intro x hx
          have hx2 : x ∈ (unlinkLoop rest).2.2 := by
            simpa [unlinkLoop, hf, hu] using hx
          exact h1 x hx2
        · simp [unlinkLoop, hf, hu, h2, List.countP_cons]
      · exfalso
        simp [unlinkLoop, hf, hu] at hok
    · have hok2 : (unlinkLoop rest).2.1 = true := by
        simpa [unlinkLoop, hf] using hok
      obtain ⟨h1, h2⟩ := ih hok2
      refine ⟨?_, ?_⟩
      · intro x hx
        have hx2 : x = e ∨ x ∈ (unlinkLoop rest).2.2 := by
          simpa [unlinkLoop, hf] using hx
        rcases hx2 with rfl | hx2
        · simpa using hf
        · exact h1 x hx2
      · simp [unlinkLoop, hf, h2, List.countP_cons]

/-- C10 counterpart of the claim (no counterexample needed): the cache store
operation _save_icon_to_cache is a no-op on absent or empty icon bytes, never
changes any lookup result when handed empty bytes (so an existing entry is
never overwritten with empty content), and preserves the invariant that every
stored entry is non-empty. -/
theorem save_icon_cache_empty_noop_invariant :
    (∀ (c : Cache) (p : String) (w : Bool), _save_icon_to_cache c p none w = c)
    ∧ (∀ (c : Cache) (p : String) (w : Bool), _save_icon_to_cache c p (some []) w = c)
    ∧ (∀ (c : Cache) (p : String) (w : Bool) (q : String) (v : Bool),
        _get_cached_icon (_save_icon_to_cache c p (some []) w) q v = _get_cached_icon c q v)
    ∧ (∀ (c : Cache) (p : String) (d : Option Bytes) (w : Bool),
        (∀ e ∈ c, e.2 ≠ ([] : Bytes)) →
        ∀ e ∈ _save_icon_to_cache c p d w, e.2 ≠ ([] : Bytes)) := by
  refine ⟨fun c p w => rfl, fun c p w => rfl, fun c p w q v => rfl, ?_⟩
  intro c p d w hc e he
  match d with
  | none => exact hc e he
  | some db =>
    by_cases hdb : db.isEmpty = true
    · have he2 : e ∈ c := by simpa [_save_icon_to_cache, hdb] using he
      exact hc e he2
    · have he2 : e = ((p, w), db) ∨
          e ∈ c.filter (fun x => decide (x.1 ≠ (p, w))) := by
        simpa [_save_icon_to_cache, hdb] using he
      rcases he2 with rfl | he2
      · intro hcon
        have hd2 : db = [] := hcon
        exact hdb (by simp [hd2])
      · exact hc e (List.mem_filter.mp he2).1

/-- C10 witness: a concrete save into a non-empty cache keeps every entry
non-empty. -/
theorem save_icon_cache_empty_noop_invariant_witness :
    (((("p", true), [2]) : (String × Bool) × Bytes)).2 ≠ ([] : Bytes) :=
  save_icon_cache_empty_noop_invariant.2.2.2 [(("q", false), [1])] "p" (some [2]) true
    (by decide) (("p", true), [2]) (by decide)

/-- C3 counterexample: in an environment where the SHGetFileInfo file-info
query would succeed, get_icon_win32 nevertheless invokes the raw
ExtractIconEx extraction first (and only), so the raw indexed call is not the
third, last-resort strategy and no large/extra-large query precedes it. -/
theorem win32_strategy_order_cex :
    envC3.shGetFileInfoIcon "a.dll" = some 2 ∧
    (get_icon_win32 envC3 "a.dll").2 = [WinStrategy.extractIconEx] ∧
    (get_icon_win32 envC3 "a.dll").1 = some [1] :=
  ⟨rfl, rfl, rfl⟩

/-- C3 amended: get_icon_win32 runs exactly two handle-acquisition
strategies, raw ExtractIconEx extraction first and the SHGetFileInfo
file-info query second, short-circuits handle acquisition on the first
success, converts the first acquired handle with _icon_to_bitmap, and reports
not-found only after both strategies failed. -/
theorem win32_two_strategy_chain (env : WinEnv) (p : String) :
    ((get_icon_win32 env p).2 =
      if (env.extractIconExLarge p).isSome then [WinStrategy.extractIconEx]
      else [WinStrategy.extractIconEx, WinStrategy.shGetFileInfo])
    ∧ (∀ h, env.extractIconExLarge p = some h →
        (get_icon_win32 env p).1 = env.iconToBitmap h)
    ∧ (env.extractIconExLarge p = none →
        ∀ h, env.shGetFileInfoIcon p = some h →
        (get_icon_win32 env p).1 = env.iconToBitmap h)
    ∧ (env.extractIconExLarge p = none → env.shGetFileInfoIcon p = none →
        (get_icon_win32 env p).1 = none) := by
  rcases h1 : env.extractIconExLarge p with _ | h
  · rcases h2 : env.shGetFileInfoIcon p with _ | h
    · simp [get_icon_win32, h1, h2]
    · simp [get_icon_win32, h1, h2]
  · simp [get_icon_win32, h1]

/-- C3 witness: with both strategies failing the chain reports not-found. -/
theorem win32_two_strategy_chain_witness :
    (get_icon_win32 envC3none "a.dll").1 = none :=
  (win32_two_strategy_chain envC3none "a.dll").2.2.2 rfl rfl

/-- C1 counterexample: for a nonexistent path get_file_icon_base64 returns
None (no bytes at all), not placeholder image bytes, refuting the claim that
the inbound icon operation always returns valid placeholder bytes. -/
theorem getIcon_nonexistent_returns_none_cex :
    envC1.pathExists "C:\\missing.txt" = false ∧
    get_file_icon_base64 envC1 [] "C:\\missing.txt" = (none, [], []) :=
  ⟨rfl, rfl⟩

/-- C1 amended: get_file_icon_base64 returns None both for nonexistent paths
and for existing plain files whose cache lookup and extraction chain all
fail; the placeholder bitmap arises only inside _icon_to_bitmap after a
handle was acquired, never at this boundary. -/
theorem getIcon_none_on_missing_or_exhausted (env : Env) (c : Cache) (p : String) :
    (env.pathExists p = false → get_file_icon_base64 env c p = (none, c, []))
    ∧ (env.pathExists p = true → isShortcutPath p = false →
        truthy (_get_cached_icon c p false) = none →
        truthy (env.win32Icon p) = none →
        (get_file_icon_base64 env c p).1 = none) := by
  constructor
  · intro h
    simp [get_file_icon_base64, h]
  · intro hex hsc hc hw
    simp [get_file_icon_base64, hex, shortcut_step, hsc, hc, hw]

/-- C1 witness: a concrete nonexistent path yields None with the cache and
trace untouched. -/
theorem getIcon_none_on_missing_witness :
    get_file_icon_base64 envC1 [] "C:\\nofile.txt" = (none, [], []) :=
  (getIcon_none_on_missing_or_exhausted envC1 [] "C:\\nofile.txt").1 rfl

/-- C6 counterexample: the generic fallback FileManager.get_file_icon renders
into a size-by-size surface and its call sites use the default size 32, so a
valid existing file produces a 32 by 32 image, not the claimed 64 by 64. -/
theorem fm_icon_32px_cex :
    envC6.pathExists "a.exe" = true ∧
    (fm_get_file_icon envC6 "a.exe" 32).map (fun i => (i.w, i.h)) = some (32, 32) ∧
    ((32, 32) : Nat × Nat) ≠ (64, 64) :=
  ⟨rfl, rfl, by decide⟩

/-- C6 amended: the system_manager renderer _icon_to_bitmap always renders
into a fixed 64 by 64 RGBA canvas (on its successful PIL path the PNG image
is exactly 64 by 64), while FileManager.get_file_icon renders a size-by-size
image, 32 by 32 at its default call sites. -/
theorem render_sizes_by_component :
    (∀ (env : RenderEnv) (hicon : Nat) (bits : Bytes),
        env.pilAvailable = true → env.pilProcessOk = true →
        env.drawIconOk hicon = true → env.getBitmapBits hicon = some bits →
        _icon_to_bitmap env hicon false = some (RenderOut.png ⟨64, 64, env.decode bits⟩))
    ∧ (∀ (env : FMEnv) (p : String) (size : Nat) (h : Nat) (bits : Bytes),
        env.pathExists p = true → env.shInfoHandle p = some h → h ≠ 0 →
        env.drawOk h = true → env.getBitmapBits h = some bits →
        fm_get_file_icon env p size = some ⟨size, size, env.decode bits⟩) := by
  constructor
  · intro env hicon bits hpil hpok hdraw hbits
    rcases hra : env.removeArrowSetting with _ | rm <;>
      simp [_icon_to_bitmap, hra, hpil, hpok, hdraw, hbits]
  · intro env p size h bits hex hsh hh hdraw hbits
    simp [fm_get_file_icon, hex, hsh, hh, hdraw, hbits]

/-- C6 witness: the renderer at a concrete succeeding environment yields the
64 by 64 image, and the file_manager fallback at size 32 yields 32 by 32. -/
theorem render_sizes_by_component_witness :
    _icon_to_bitmap envC6render 7 false =
      some (RenderOut.png ⟨64, 64, envC6render.decode [1, 2, 3]⟩) :=
  render_sizes_by_component.1 envC6render 7 [1, 2, 3] rfl rfl rfl rfl

/-- C8 counterexample: with PIL unavailable (the module keeps running with
PIL_AVAILABLE = False when the import fails) and drawing failing,
_icon_to_bitmap skips the gray-placeholder construction and returns None, a
non-image value -- refuting the claim that every drawing or read-back failure
yields the flat gray 64 by 64 image and never fails the request. -/
theorem icon_to_bitmap_none_without_pil_cex :
    envC8noPil.pilAvailable = false ∧
    envC8noPil.drawIconOk 7 = false ∧
    _icon_to_bitmap envC8noPil 7 false = none :=
  ⟨rfl, rfl, rfl⟩

/-- C8 amended: on drawing or pixel read-back failure _icon_to_bitmap returns
the flat neutral-gray fully opaque 64 by 64 image exactly when PIL is
available; when PIL is unavailable the fallback construction is skipped and
the function returns None, a non-image value, so rendering failure is
absorbed only in PIL-equipped installs. -/
theorem icon_to_bitmap_gray_fallback (env : RenderEnv) (hicon : Nat) (add_arrow : Bool)
    (hfail : env.drawIconOk hicon = false ∨ env.getBitmapBits hicon = none) :
    (env.pilAvailable = true →
      _icon_to_bitmap env hicon add_arrow = some (RenderOut.png gray64)) ∧
    (env.pilAvailable = false →
      _icon_to_bitmap env hicon add_arrow = none) ∧
    gray64.w = 64 ∧ gray64.h = 64 ∧
    ∀ x y, gray64.px x y = ⟨200, 200, 200, 255⟩ := by
  refine ⟨?_, ?_, rfl, rfl, fun x y => rfl⟩
  all_goals
    intro hpil
    rcases hfail with hf | hf
    · simp [_icon_to_bitmap, hf, hpil]
    · rcases hd : env.drawIconOk hicon with _ | _
      · simp [_icon_to_bitmap, hd, hpil]
      · simp [_icon_to_bitmap, hd, hf, hpil]

/-- C8 witness: a concrete failing draw yields the gray placeholder when PIL
is available. -/
theorem icon_to_bitmap_gray_fallback_witness :
    _icon_to_bitmap envC8 7 false = some (RenderOut.png gray64) :=
  (icon_to_bitmap_gray_fallback envC8 7 false (Or.inl rfl)).1 rfl

/-- C5 counterexample: with a locked file first in the cache directory, the
single try block around the unlink loop aborts on the failure, so a
deletable file behind it survives, no removed-files count is reported (an
error note appears instead), and the caller still receives success -- refuting
skip-and-continue per-file handling. -/
theorem clear_cache_abort_on_failure_cex :
    (clear_icon_cache envC5).remaining =
      [⟨"locked.png", true, false⟩, ⟨"b.png", true, true⟩] ∧
    (⟨"b.png", true, true⟩ : DirEntry) ∈ (clear_icon_cache envC5).remaining ∧
    (⟨"b.png", true, true⟩ : DirEntry).isFile = true ∧
    (⟨"b.png", true, true⟩ : DirEntry).unlinkOk = true ∧
    ((clear_icon_cache envC5).messages.all notDeletedCount) = true ∧
    (clear_icon_cache envC5).success = true := by
  decide

/-- C5 amended: clear_icon_cache always answers success 200 and resets the
in-memory maps; it deletes cache files in order only until the first failing
deletion (a failure aborts the remaining deletions and replaces the count
with an error note); when no deletion fails every file is removed and the
count of removed files is reported. -/
theorem clear_cache_resets_and_reports (env : ClearEnv)
    (hfm : env.fmPresent = true) (hsm : env.smPresent = true) :
    (clear_icon_cache env).success = true ∧
    (clear_icon_cache env).status = 200 ∧
    (clear_icon_cache env).fmCache = 0 ∧
    (clear_icon_cache env).smCache = 0 ∧
    (clear_icon_cache env).smLnkCache = 0 ∧
    (env.cacheDirExists = true →
      (clear_icon_cache env).remaining = (unlinkLoop env.entries).2.2) ∧
    (env.cacheDirExists = true → (unlinkLoop env.entries).2.1 = true →
      (∀ e ∈ (clear_icon_cache env).remaining, e.isFile = false) ∧
      ClearMsg.deletedFiles (env.entries.countP (fun e => e.isFile))
        ∈ (clear_icon_cache env).messages) := by
  refine ⟨by simp [clear_icon_cache], by simp [clear_icon_cache],
    by simp [clear_icon_cache, hfm], by simp [clear_icon_cache, hsm],
    by simp [clear_icon_cache, hsm], ?_, ?_⟩
  · intro hdir
    simp [clear_icon_cache, hsm, hdir]
  · intro hdir hok
    obtain ⟨h1, h2⟩ := unlinkLoop_ok_characterisation env.entries hok
    constructor
    · intro e he
      have he2 : e ∈ (unlinkLoop env.entries).2.2 := by
        simpa [clear_icon_cache, hsm, hdir] using he
      exact h1 e he2
    · simp [clear_icon_cache, hfm, hsm, hdir, hok, h2]

/-- C5 witness: with every file deletable, the maps are reset, nothing
file-like survives and the count is reported. -/
theorem clear_cache_resets_and_reports_witness :
    (clear_icon_cache envC5ok).smCache = 0 :=
  (clear_cache_resets_and_reports envC5ok rfl rfl).2.2.2.1

theorem lnk_method2_acts_shape (env : Env) (c : Cache) (p : String) :
    (lnk_method2 env c p).2.2 = [Act.shQuery p false] ∨
    (lnk_method2 env c p).2.2 = [Act.shQuery p false, Act.shQuery p true] := by
  unfold lnk_method2
  rcases h1 : truthy (env.shInfoIcon p) with _ | orig
  · simp
  · by_cases hra : env.remove_arrow = true
    · simp [hra]
    · rcases h2 : truthy (env.shInfoIconOverlay p) with _ | arr
      · by_cases hp : env.pilAvailable = true
        · rcases h3 : truthy (env.addArrow orig) with _ | arr2 <;> simp [hra, hp, h2, h3]
        · simp [hra, hp, h2]
      · simp [hra, h2]

theorem get_lnk_icon_no_ico (env : Env) (c : Cache) (p : String) :
    ((get_lnk_icon env c p).2.2.all notIcoDirect) = true := by
  have hm2 : ((lnk_method2 env c p).2.2.all notIcoDirect) = true := by
    rcases lnk_method2_acts_shape env c p with h | h <;> simp [h, notIcoDirect]
  unfold get_lnk_icon
  rcases h1 : truthy (_get_cached_icon c p (!env.remove_arrow)) with _ | d
  · simp only [h1]
    rcases h2 : env.lnkTarget p with _ | t
    · simpa using hm2
    · simp only [h2]
      by_cases h3 : (!t.isEmpty && env.pathExists t) = true
      · rcases h4 : truthy (env.win32Icon t) with _ | orig
        · simpa [h3, h4, withActs, List.all_append, notIcoDirect] using hm2
        · by_cases h5 : (!env.remove_arrow && env.pilAvailable) = true
          · rcases h6 : truthy (env.addArrow orig) with _ | arr <;>
              simp [h3, h4, h5, h6, notIcoDirect]
          · simp [h3, h4, h5, notIcoDirect]
      · simpa [h3] using hm2
  · simp [h1, notIcoDirect]

/-- C2 counterexample: the shortcut s.lnk resolves to a target that no longer
exists while its stored icon-file/icon-index pair names an existing loadable
icon file; get_lnk_icon nevertheless queries the shortcut file itself
(SHGetFileInfo, then the overlay query) and never targets extraction at the
stored icon file, refuting the claimed preference for the icon-file/index
pair. -/
theorem lnk_fallback_skips_icon_location_cex :
    envC2.lnkIconLocation "s.lnk" = some ("C:\\app.ico", 0) ∧
    envC2.pathExists "C:\\app.ico" = true ∧
    envC2.icoLoad "C:\\app.ico" = some 1 ∧
    envC2.pathExists "C:\\gone.exe" = false ∧
    envC2.lnkTarget "s.lnk" = some "C:\\gone.exe" ∧
    (get_lnk_icon envC2 [] "s.lnk").2.2 =
      [Act.shQuery "s.lnk" false, Act.shQuery "s.lnk" true] ∧
    (get_lnk_icon envC2 [] "s.lnk").1 = some [8] := by
  refine ⟨rfl, by decide, rfl, by decide, rfl, by decide, by decide⟩

/-- C2 amended: when the resolved target path of a shortcut does not exist,
get_lnk_icon falls back directly to SHGetFileInfo queries against the
shortcut file itself (the plain query, then the link-overlay query when the
indicator is requested); the stored icon-file/icon-index pair of the shortcut
is never consulted on any path of the function. -/
theorem lnk_fallback_direct_to_shell_query (env : Env) (c : Cache) (p : String) (t : String)
    (hmiss : truthy (_get_cached_icon c p (!env.remove_arrow)) = none)
    (ht : env.lnkTarget p = some t)
    (hne : env.pathExists t = false) :
    get_lnk_icon env c p = lnk_method2 env c p ∧
    ((get_lnk_icon env c p).2.2.all notIcoDirect) = true ∧
    ((lnk_method2 env c p).2.2 = [Act.shQuery p false] ∨
     (lnk_method2 env c p).2.2 = [Act.shQuery p false, Act.shQuery p true]) := by
  refine ⟨?_, get_lnk_icon_no_ico env c p, lnk_method2_acts_shape env c p⟩
  simp [get_lnk_icon, hmiss, ht, hne]

/-- C2 witness: at the concrete counterexample environment the fallback is
the direct shell query and no action targets an icon file. -/
theorem lnk_fallback_direct_to_shell_query_witness :
    (get_lnk_icon envC2 [] "s.lnk").2.2.all notIcoDirect = true :=
  (lnk_fallback_direct_to_shell_query envC2 [] "s.lnk" "C:\\gone.exe" rfl rfl
    (by decide)).2.1

/-- C4 counterexample: a .url file whose parsed IconFile resolves to an
existing path that is a .dll; get_url_icon skips the direct icon-file load
and falls back to the generic file-info query against the shortcut file,
refuting the claim that the fallback happens only when IconFile does not
resolve. -/
theorem url_iconfile_non_ico_fallback_cex :
    (parse_url_fields (envC4.urlLines "s.url")).1 = some "C:\\icons\\app.dll" ∧
    envC4.pathExists "C:\\icons\\app.dll" = true ∧
    (get_url_icon envC4 [] "s.url").2.2 = [Act.shQuery "s.url" false] ∧
    (get_url_icon envC4 [] "s.url").1 = some [5, 5] := by
  refine ⟨by decide, by decide, by decide, by decide⟩

/-- C4 amended: the direct icon-file extraction of get_url_icon happens
exactly when the parsed IconFile is non-empty, exists on disk, names a .ico
file (case-insensitively) and PIL can open it; it then extracts the frame at
the parsed IconIndex whenever 0 <= IconIndex < n_frames (the concrete
scenario: frame 2 of a 3-frame app.ico); in every other case -- including an
IconFile that resolves to an existing non-.ico path -- it falls back to the
generic file-info query against the shortcut file itself. -/
theorem url_ico_frame_selection (env : Env) (c : Cache) (p : String) (f : String)
    (idx : Int) (u : String) (nf : Nat)
    (hmiss : truthy (_get_cached_icon c p false) = none)
    (hparse : parse_url_fields (env.urlLines p) = (some f, idx, u))
    (hfne : f.isEmpty = false)
    (hex : env.pathExists f = true) :
    (endswith (lower f) ".ico" = true → env.pilAvailable = true →
      env.icoLoad f = some nf → 0 ≤ idx → idx < (nf : Int) →
      (get_url_icon env c p).2.2 = [Act.icoDirect f idx.toNat] ∧
      (env.remove_arrow = true →
        (get_url_icon env c p).1 = some (env.icoRender f idx.toNat)))
    ∧ (endswith (lower f) ".ico" = false →
      get_url_icon env c p = url_shell_branch env c p) := by
  have hurl : get_url_icon env c p = url_after_cache env c p := by
    simp [get_url_icon, hmiss]
  constructor
  · intro hico hpil hload h0 hlt
    rw [hurl]
    simp only [url_after_cache]
    rw [hparse]
    simp only [hfne, hex, hico, hpil, hload, Bool.not_false, Bool.and_self, if_true]
    rw [if_pos ⟨h0, hlt⟩]
    rcases h3 : truthy (env.addArrow (env.icoRender f idx.toNat)) with _ | arr <;>
      exact ⟨by simp [h3], fun hra => by simp [h3, hra]⟩
  · intro hico
    rw [hurl]
    simp only [url_after_cache]
    rw [hparse]
    simp [hfne, hex, hico]

/-- C4 witness: the concrete spec scenario -- app.ico exists with 3 frames and
IconIndex=2 -- extracts frame 2, not frame 0. -/
theorem url_ico_frame_selection_witness :
    (get_url_icon envC4ico [] "s.url").2.2 = [Act.icoDirect "C:\\icons\\app.ico" 2] :=
  ((url_ico_frame_selection envC4ico [] "s.url" "C:\\icons\\app.ico" 2
    "https://example.com" 3 rfl (by decide) rfl (by decide)).1
    (by decide) rfl rfl (by decide) (by decide)).1

/-- C9 counterexample: for the shortcut x.lnk (indicator requested, indicator
compositing unavailable) the first call extracts from the target and returns
bytes, but only the plain variant gets cached; the second call, with no
intervening filesystem change, returns byte-identical output yet performs the
native extraction again instead of being answered from the cache -- refuting
the claim that the second call is always served from the on-disk cache with
no native extraction. -/
theorem second_call_reextracts_cex :
    (get_file_icon_base64 envC9 (get_file_icon_base64 envC9 [] "x.lnk").2.1 "x.lnk").1
      = (get_file_icon_base64 envC9 [] "x.lnk").1 ∧
    (get_file_icon_base64 envC9 [] "x.lnk").1 = some "AQI=" ∧
    (get_file_icon_base64 envC9 (get_file_icon_base64 envC9 [] "x.lnk").2.1 "x.lnk").2.2
      = [Act.extractWin32 "C:\\t.exe"] ∧
    ((get_file_icon_base64 envC9 (get_file_icon_base64 envC9 [] "x.lnk").2.1 "x.lnk").2.2.any
      Act.isNative) = true := by
  refine ⟨by decide, by decide, by decide, by decide⟩

/-- C9 amended: whenever the first call returned exactly the bytes it stored
under the variant the request reads (which holds for every plain file whose
extraction succeeds, and for shortcuts whose requested variant was derived and
cached), the second call with no intervening change returns byte-identical
output, leaves the cache untouched, and is answered from the on-disk cache
with no native extraction action. -/
theorem second_call_cache_served_when_variant_cached (env : Env) (c : Cache) (p : String)
    (d : Bytes)
    (hex : env.pathExists p = true)
    (hd : truthy (_get_cached_icon (get_file_icon_base64 env c p).2.1 p
      (requestedVariant env p)) = some d)
    (hr : (get_file_icon_base64 env c p).1 = some (b64encode d)) :
    (get_file_icon_base64 env (get_file_icon_base64 env c p).2.1 p).1
      = (get_file_icon_base64 env c p).1 ∧
    (get_file_icon_base64 env (get_file_icon_base64 env c p).2.1 p).2.1
      = (get_file_icon_base64 env c p).2.1 ∧
    ((get_file_icon_base64 env (get_file_icon_base64 env c p).2.1 p).2.2.all
      (fun a => !a.isNative)) = true := by
  rw [hr]
  by_cases hs : isShortcutPath p = true
  · have hv : requestedVariant env p = !env.remove_arrow := by
      simp [requestedVariant, hs]
    rw [hv] at hd
    revert hd
    generalize (get_file_icon_base64 env c p).2.1 = c1
    intro hd
    have hstep : shortcut_step env c1 p =
        (some (b64encode d), c1, [Act.cacheHit p (!env.remove_arrow)]) := by
      simp [shortcut_step, hs, hd]
    simp [get_file_icon_base64, hex, hstep, Act.isNative]
  · have hv : requestedVariant env p = false := by
      simp [requestedVariant, hs]
    rw [hv] at hd
    revert hd
    generalize (get_file_icon_base64 env c p).2.1 = c1
    intro hd
    have hstep : shortcut_step env c1 p = (none, c1, []) := by
      simp [shortcut_step, hs]
    simp [get_file_icon_base64, hex, hstep, hd, Act.isNative]

/-- C9 witness: for a plain file whose extraction succeeded, the second call
returns the same base64 output as the first. -/
theorem second_call_cache_served_witness :
    (get_file_icon_base64 envC9w (get_file_icon_base64 envC9w [] "a.exe").2.1 "a.exe").1
      = (get_file_icon_base64 envC9w [] "a.exe").1 :=
  (second_call_cache_served_when_variant_cached envC9w [] "a.exe" [7]
    (by decide) (by decide) (by decide)).1

theorem alphaOver_transparent (pxl : Pixel) (hpa : pxl.a ≠ 0) :
    alphaOverPx pxl transparentPx = pxl := by
  obtain ⟨pr, pg, pb, pa⟩ := pxl
  have h2 : pa ≠ 0 := by simpa using hpa
  have h3 : pa / 255 ≠ 0 := div_ne_zero h2 (by norm_num)
  unfold alphaOverPx transparentPx
  ext <;> simp [h3] <;> field_simp

theorem mix_opaque_over (bot s : Pixel) (hs : s.a = 255) :
    alphaOverPx bot (mixPx transparentPx s s.a) = s := by
  obtain ⟨sr, sg, sb, sa⟩ := s
  obtain ⟨br, bg, bb, ba⟩ := bot
  simp only [Pixel.mk.injEq] at hs ⊢
  subst hs
  unfold alphaOverPx mixPx transparentPx
  ext <;> norm_num

theorem mix_transparent_over (bot s : Pixel) (hs : s.a = 0) (hb : bot.a ≠ 0) :
    alphaOverPx bot (mixPx transparentPx s s.a) = bot := by
  have hmix : mixPx transparentPx s s.a = transparentPx := by
    obtain ⟨sr, sg, sb, sa⟩ := s
    simp only at hs
    subst hs
    unfold mixPx transparentPx
    ext <;> simp
  rw [hmix]
  exact alphaOver_transparent bot hb

/-- C7: _add_arrow_to_icon keeps the base canvas size, scales the indicator
to int(w * 0.4) (2 * w / 5 on these Nat sizes), pastes its top-left corner at
x = int(w * 0.1) and y = h - int(h * 0.1) - arrow_size (bottom-left anchor
with symmetric margin), leaves every pixel outside that rectangle unchanged,
and inside it alpha-blends the masked indicator over the base, the blend
governed by the indicator alpha: a fully opaque indicator pixel replaces the
base pixel, a fully transparent one leaves it unchanged. -/
theorem add_arrow_geometry_and_blend (sample : Sampler) (arrow : Img) (base : Img)
    (hgeom : 2 * base.w / 5 + base.h / 10 ≤ base.h) :
    (_add_arrow_to_icon sample arrow base).w = base.w ∧
    (_add_arrow_to_icon sample arrow base).h = base.h ∧
    (base.h - base.h / 10 - 2 * base.w / 5) + 2 * base.w / 5 ≤ base.h ∧
    (∀ x y,
      base.w / 10 ≤ x → x < base.w / 10 + 2 * base.w / 5 →
      base.h - base.h / 10 - 2 * base.w / 5 ≤ y →
      y < base.h - base.h / 10 - 2 * base.w / 5 + 2 * base.w / 5 →
      (_add_arrow_to_icon sample arrow base).px x y =
        alphaOverPx (base.px x y)
          (mixPx transparentPx
            (sample arrow (2 * base.w / 5) (2 * base.w / 5) (x - base.w / 10)
              (y - (base.h - base.h / 10 - 2 * base.w / 5)))
            (sample arrow (2 * base.w / 5) (2 * base.w / 5) (x - base.w / 10)
              (y - (base.h - base.h / 10 - 2 * base.w / 5))).a)) ∧
    (∀ x y,
      ¬(base.w / 10 ≤ x ∧ x < base.w / 10 + 2 * base.w / 5 ∧
        base.h - base.h / 10 - 2 * base.w / 5 ≤ y ∧
        y < base.h - base.h / 10 - 2 * base.w / 5 + 2 * base.w / 5) →
      (base.px x y).a ≠ 0 →
      (_add_arrow_to_icon sample arrow base).px x y = base.px x y) ∧
    (∀ x y,
      base.w / 10 ≤ x → x < base.w / 10 + 2 * base.w / 5 →
      base.h - base.h / 10 - 2 * base.w / 5 ≤ y →
      y < base.h - base.h / 10 - 2 * base.w / 5 + 2 * base.w / 5 →
      (sample arrow (2 * base.w / 5) (2 * base.w / 5) (x - base.w / 10)
        (y - (base.h - base.h / 10 - 2 * base.w / 5))).a = 255 →
      (_add_arrow_to_icon sample arrow base).px x y =
        sample arrow (2 * base.w / 5) (2 * base.w / 5) (x - base.w / 10)
          (y - (base.h - base.h / 10 - 2 * base.w / 5))) ∧
    (∀ x y,
      base.w / 10 ≤ x → x < base.w / 10 + 2 * base.w / 5 →
      base.h - base.h / 10 - 2 * base.w / 5 ≤ y →
      y < base.h - base.h / 10 - 2 * base.w / 5 + 2 * base.w / 5 →
      (sample arrow (2 * base.w / 5) (2 * base.w / 5) (x - base.w / 10)
        (y - (base.h - base.h / 10 - 2 * base.w / 5))).a = 0 →
      (base.px x y).a ≠ 0 →
      (_add_arrow_to_icon sample arrow base).px x y = base.px x y) := by
  have hpx : ∀ x y,
      (_add_arrow_to_icon sample arrow base).px x y =
        alphaOverPx (base.px x y)
          (if base.w / 10 ≤ x ∧ x < base.w / 10 + 2 * base.w / 5 ∧
              base.h - base.h / 10 - 2 * base.w / 5 ≤ y ∧
              y < base.h - base.h / 10 - 2 * base.w / 5 + 2 * base.w / 5 then
            mixPx transparentPx
              (sample arrow (2 * base.w / 5) (2 * base.w / 5) (x - base.w / 10)
                (y - (base.h - base.h / 10 - 2 * base.w / 5)))
              (sample arrow (2 * base.w / 5) (2 * base.w / 5) (x - base.w / 10)
                (y - (base.h - base.h / 10 - 2 * base.w / 5))).a
          else transparentPx) := by
    intro x y
    rfl
  refine ⟨rfl, rfl, by omega, ?_, ?_, ?_, ?_⟩
  · intro x y h1 h2 h3 h4
    rw [hpx x y, if_pos ⟨h1, h2, h3, h4⟩]
  · intro x y hout hba
    rw [hpx x y, if_neg hout]
    exact alphaOver_transparent _ hba
  · intro x y h1 h2 h3 h4 hsa
    rw [hpx x y, if_pos ⟨h1, h2, h3, h4⟩]
    exact mix_opaque_over _ _ hsa
  · intro x y h1 h2 h3 h4 hsa hba
    rw [hpx x y, if_pos ⟨h1, h2, h3, h4⟩]
    exact mix_transparent_over _ _ hsa hba

/-- C7 witness: on a 64 by 64 base the indicator rectangle is
[6, 31) by [33, 58); at (6, 33) a fully opaque blue indicator pixel replaces
the base pixel. -/
theorem add_arrow_geometry_and_blend_witness :
    (_add_arrow_to_icon sampleBlue arrowBlue baseRed).px 6 33 = ⟨0, 0, 255, 255⟩ :=
  (add_arrow_geometry_and_blend sampleBlue arrowBlue baseRed (by decide)).2.2.2.2.2.1 6 33
    (by decide) (by decide) (by decide) (by decide) rfl
